import Mathlib

/-!
# Verification of the `lsdb` catalog exporter (`src/lsdb/io/to_hipscat.py`)

A shallow embedding of the partition-export and catalog-metadata-assembly
workflow.  The module under verification is a linear pipeline: create the
destination directory, write one parquet file per HEALPix partition, then
write parquet-level metadata, partition-index metadata, catalog info and
provenance info.

Modelling decisions:
* Side effects are recorded as a trace (`List IOEvent`); fallible steps
  return `List IOEvent × Except ExportError α` so that events performed
  before a failure remain visible in the trace.
* The external collaborators (the `hipscat` library's directory creation,
  path derivation and metadata writers, and `importlib.metadata.version`)
  are modelled at the interface level described in the specification;
  failure injection and the version lookup live in an `Env` record.
* Dataframes are abstracted to lists of opaque rows (`List Nat`): only
  their identity and length (`len(partition)`) matter to this workflow.
* For the aliasing claim about `create_modified_catalog_structure`, a
  second embedding with an explicit object heap models Python reference
  semantics (`copy.copy` is shallow; attribute assignment mutates only the
  assigned object; `dataclasses.replace` allocates a fresh record).
-/

/-- A HEALPix tile key: hierarchical order and pixel number within it
(`hipscat.pixel_math.HealpixPixel`). -/
structure HealpixPixel where
  order : Nat
  pixel : Nat
deriving DecidableEq, Repr, Inhabited

/-- A file pointer, as produced by `hc.io.get_file_pointer_from_path`. -/
structure FilePointer where
  path : String
deriving DecidableEq, Repr, Inhabited

/-- Embedding of `hc.io.get_file_pointer_from_path`. -/
def get_file_pointer_from_path (path : String) : FilePointer :=
  ⟨path⟩

/-- A partition's materialized tabular data: only its rows matter here, so
rows are opaque naturals and `len` is `List.length`. -/
abbrev DataFrame := List Nat

/-- The deterministic per-tile file path produced by
`hc.io.paths.pixel_catalog_file(base, order, pixel)`; modelled abstractly by
its three components, which the external collaborator maps to a path
injectively. -/
structure PixelPath where
  base : FilePointer
  order : Nat
  pixel : Nat
deriving DecidableEq, Repr, Inhabited

/-- Embedding of `hc.io.paths.pixel_catalog_file`. -/
def pixel_catalog_file (base : FilePointer) (order : Nat) (pixel : Nat) : PixelPath :=
  ⟨base, order, pixel⟩

/-- The catalog-info record (`hc_structure.catalog_info`), with the fields
this workflow reads or replaces. -/
structure CatalogInfo where
  catalog_name : String
  catalog_type : String
  total_rows : Nat
  epoch : String
  ra_column : String
  dec_column : String
deriving DecidableEq, Repr, Inhabited

/-- The HiPSCat catalog structure (`hc.catalog.Catalog`), with the fields
`create_modified_catalog_structure` reads or replaces. -/
structure CatalogStructure where
  catalog_name : String
  catalog_path : String
  catalog_base_dir : FilePointer
  on_disk : Bool
  catalog_info : CatalogInfo
deriving DecidableEq, Repr, Inhabited

/-- The in-memory `lsdb` catalog: the tile-key-to-partition-index mapping
`_ddf_pixel_map` (a Python dict, embedded as an insertion-ordered
association list), the list of partitions of `_ddf`, and the HiPSCat
structure `hc_structure`. -/
structure Catalog where
  ddf_pixel_map : List (HealpixPixel × Nat)
  ddf_partitions : List DataFrame
  hc_structure : CatalogStructure
deriving DecidableEq, Repr, Inhabited

/-- An underlying I/O failure reported by a collaborator. -/
abbrev IOFailure := String

/-- The error taxonomy of the export workflow. -/
inductive ExportError where
  | directoryCreationError (cause : IOFailure)
  | partitionWriteError (cause : IOFailure)
deriving DecidableEq, Repr

/-- The runtime arguments assembled by `_get_provenance_info`. -/
structure ProvenanceArgs where
  catalog_name : String
  output_path : String
  output_catalog_name : String
  catalog_path : String
  epoch : String
  catalog_type : String
  ra_column : String
  dec_column : String
deriving DecidableEq, Repr, Inhabited

/-- The provenance record assembled by `_get_provenance_info`. -/
structure ProvenanceInfo where
  tool_name : String
  version : String
  runtime_args : ProvenanceArgs
deriving DecidableEq, Repr, Inhabited

/-- One observable side effect of the export pipeline. -/
inductive IOEvent where
  | makeDirectory (fp : FilePointer)
  | writeDataFile (df : DataFrame) (path : PixelPath)
  | writeParquetMetadata (base : String)
  | writePartitionInfo (fp : FilePointer) (info : List (HealpixPixel × (Nat × List Nat)))
  | writeCatalogInfo (base : String) (info : CatalogInfo)
  | writeProvenance (fp : FilePointer) (info : CatalogInfo) (prov : ProvenanceInfo)
deriving DecidableEq, Repr

/-- The ambient environment: failure injection for the fallible external
calls and the `importlib.metadata.version` lookup. -/
structure Env where
  mkdirFails : String → Option IOFailure
  writeFails : PixelPath → Option IOFailure
  versionLookup : String → String

/-- Modelled from the spec: `lsdb.io.file_io.write_dataframe_to_parquet` is
imported by the exporter but its source is not part of this excerpt; per the
specification, a partition write that cannot complete fails with
`PartitionWriteError` wrapping the underlying I/O failure, and a successful
write leaves the data file on disk. -/
def write_dataframe_to_parquet (env : Env) (df : DataFrame) (path : PixelPath) :
    List IOEvent × Except ExportError Unit :=
  match env.writeFails path with
  | some cause => ([], .error (.partitionWriteError cause))
  | none => ([.writeDataFile df path], .ok ())

/-- The loop body of `write_partitions`, recursing over the entries of
`catalog._ddf_pixel_map`: materialize the partition, write it to its
deterministic path, and record `(pixel, len(partition))`. -/
def writePartitionsGo (env : Env) (parts : List DataFrame) (base : FilePointer) :
    List (HealpixPixel × Nat) → List IOEvent × Except ExportError (List (HealpixPixel × Nat))
  | [] => ([], .ok [])
  | (pixel, partition_index) :: rest =>
    let partition := parts.getD partition_index []
    let pixel_path := pixel_catalog_file base pixel.order pixel.pixel
    match write_dataframe_to_parquet env partition pixel_path with
    | (tr₁, .error e) => (tr₁, .error e)
    | (tr₁, .ok _) =>
      let (tr₂, res) := writePartitionsGo env parts base rest
      (tr₁ ++ tr₂, res.map (fun m => (pixel, partition.length) :: m))

/-- Embedding of `write_partitions`: saves every partition of the catalog as
parquet and returns the pixel-to-partition-size map. -/
def write_partitions (env : Env) (catalog : Catalog) (base_catalog_dir_fp : FilePointer) :
    List IOEvent × Except ExportError (List (HealpixPixel × Nat)) :=
  writePartitionsGo env catalog.ddf_partitions base_catalog_dir_fp catalog.ddf_pixel_map

/-- Embedding of `_get_partition_info_dict`: maps each pixel to the pair of
its row count and the single-element list of its own pixel number. -/
def get_partition_info_dict (ddf_points_map : List (HealpixPixel × Nat)) :
    List (HealpixPixel × (Nat × List Nat)) :=
  ddf_points_map.map (fun pl => (pl.fst, (pl.snd, [pl.fst.pixel])))

/-- Embedding of `create_modified_catalog_structure` at the value level:
copy the structure and overwrite name, path, base dir pointer, on-disk flag,
and replace the catalog info's name and total row count. -/
def create_modified_catalog_structure (catalog_structure : CatalogStructure)
    (catalog_base_dir : String) (catalog_name : String) (total_rows : Nat) :
    CatalogStructure :=
  { catalog_structure with
    catalog_name := catalog_name
    catalog_path := catalog_base_dir
    catalog_base_dir := get_file_pointer_from_path catalog_base_dir
    on_disk := true
    catalog_info := { catalog_structure.catalog_info with
      catalog_name := catalog_name
      total_rows := total_rows } }

/-- Embedding of `_get_provenance_info`: tool name, release version from the
version lookup, and the runtime-argument mapping. -/
def get_provenance_info (env : Env) (catalog_structure : CatalogStructure) :
    ProvenanceInfo :=
  { tool_name := "lsdb"
    version := env.versionLookup "lsdb"
    runtime_args :=
      { catalog_name := catalog_structure.catalog_name
        output_path := catalog_structure.catalog_path
        output_catalog_name := catalog_structure.catalog_name
        catalog_path := catalog_structure.catalog_path
        epoch := catalog_structure.catalog_info.epoch
        catalog_type := catalog_structure.catalog_info.catalog_type
        ra_column := catalog_structure.catalog_info.ra_column
        dec_column := catalog_structure.catalog_info.dec_column } }

/-- Python truthiness resolution of the `catalog_name` argument:
`catalog_name if catalog_name else catalog.hc_structure.catalog_name`.
`None` and the empty string are both falsy. -/
def resolveCatalogName (catalog_name : Option String) (original : String) : String :=
  match catalog_name with
  | none => original
  | some s => if s = "" then original else s

/-- Embedding of `to_hipscat`: the six-step export pipeline, returning the
trace of performed side effects and the overall outcome. -/
def to_hipscat (env : Env) (catalog : Catalog) (base_catalog_path : String)
    (catalog_name : Option String) : List IOEvent × Except ExportError Unit :=
  let base_catalog_dir_fp := get_file_pointer_from_path base_catalog_path
  match env.mkdirFails base_catalog_path with
  | some cause => ([], .error (.directoryCreationError cause))
  | none =>
    match write_partitions env catalog base_catalog_dir_fp with
    | (tr, .error e) => (IOEvent.makeDirectory base_catalog_dir_fp :: tr, .error e)
    | (tr, .ok pixel_to_partition_size_map) =>
      let partition_info := get_partition_info_dict pixel_to_partition_size_map
      let new_hc_structure := create_modified_catalog_structure
        catalog.hc_structure base_catalog_path
        (resolveCatalogName catalog_name catalog.hc_structure.catalog_name)
        ((partition_info.map (fun pi => pi.snd.fst)).sum)
      (IOEvent.makeDirectory base_catalog_dir_fp :: tr ++
        [IOEvent.writeParquetMetadata base_catalog_path,
         IOEvent.writePartitionInfo base_catalog_dir_fp partition_info,
         IOEvent.writeCatalogInfo base_catalog_path new_hc_structure.catalog_info,
         IOEvent.writeProvenance base_catalog_dir_fp new_hc_structure.catalog_info
           (get_provenance_info env new_hc_structure)],
       .ok ())

/-- The catalog-info record written by a trace, if any (the pipeline writes
at most one). -/
def writtenCatalogInfo : List IOEvent → Option CatalogInfo
  | [] => none
  | IOEvent.writeCatalogInfo _ info :: _ => some info
  | _ :: rest => writtenCatalogInfo rest

/-- The provenance record written by a trace, if any. -/
def writtenProvenance : List IOEvent → Option ProvenanceInfo
  | [] => none
  | IOEvent.writeProvenance _ _ prov :: _ => some prov
  | _ :: rest => writtenProvenance rest

/-- Whether an event is a partition data-file write. -/
def IOEvent.isWriteDataFile : IOEvent → Bool
  | IOEvent.writeDataFile _ _ => true
  | _ => false

/-- Whether an event is a catalog-info write. -/
def IOEvent.isWriteCatalogInfo : IOEvent → Bool
  | IOEvent.writeCatalogInfo _ _ => true
  | _ => false

/-- The paths of the partition data files written in a trace, in order. -/
def writtenDataFilePaths (tr : List IOEvent) : List PixelPath :=
  tr.filterMap fun e => match e with
    | IOEvent.writeDataFile _ path => some path
    | _ => none

/-- A sample catalog-info record, used to instantiate theorems. -/
def sampleInfo : CatalogInfo :=
  { catalog_name := "small_sky"
    catalog_type := "object"
    total_rows := 0
    epoch := "J2000"
    ra_column := "ra"
    dec_column := "dec" }

/-- A sample HiPSCat structure, used to instantiate theorems. -/
def sampleStructure : CatalogStructure :=
  { catalog_name := "small_sky"
    catalog_path := "/data/small_sky"
    catalog_base_dir := ⟨"/data/small_sky"⟩
    on_disk := false
    catalog_info := sampleInfo }

/-- A sample two-partition catalog (rows 5 and 7), used to instantiate
theorems. -/
def sampleCatalog : Catalog :=
  { ddf_pixel_map := [(⟨0, 11⟩, 0), (⟨1, 3⟩, 1)]
    ddf_partitions := [[1, 2, 3, 4, 5], [6, 7, 8, 9, 10, 11, 12]]
    hc_structure := sampleStructure }

/-- A sample catalog with an empty partition, used to instantiate theorems. -/
def sampleCatalogWithEmpty : Catalog :=
  { ddf_pixel_map := [(⟨0, 11⟩, 0), (⟨1, 3⟩, 1)]
    ddf_partitions := [[], [6, 7]]
    hc_structure := sampleStructure }

/-- An environment in which every external call succeeds. -/
def okEnv : Env :=
  { mkdirFails := fun _ => none
    writeFails := fun _ => none
    versionLookup := fun _ => "0.0.1" }

/-- An environment in which directory creation fails. -/
def mkdirFailEnv : Env :=
  { mkdirFails := fun _ => some "permission denied"
    writeFails := fun _ => none
    versionLookup := fun _ => "0.0.1" }

/-- An environment in which writing the data file of pixel (order 1,
pixel 3) fails and everything else succeeds. -/
def writeFailEnv : Env :=
  { mkdirFails := fun _ => none
    writeFails := fun p => if p.order = 1 ∧ p.pixel = 3 then some "disk full" else none
    versionLookup := fun _ => "0.0.1" }

/-- The object contents of an `hc.catalog.Catalog` in the Python heap model:
the `catalog_info` attribute holds a reference into the info heap, so that
`copy.copy`'s shallowness is observable. -/
structure PyCatalogStructure where
  catalog_name : String
  catalog_path : String
  catalog_base_dir : FilePointer
  on_disk : Bool
  catalog_info : Nat
deriving DecidableEq, Repr, Inhabited

/-- A heap of catalog-structure objects and catalog-info objects; a
reference is an index into the corresponding list. -/
structure PyHeap where
  structs : List PyCatalogStructure
  infos : List CatalogInfo
deriving DecidableEq, Repr, Inhabited

/-- Dereference a structure object. -/
def PyHeap.getStruct (h : PyHeap) (r : Nat) : PyCatalogStructure :=
  h.structs.getD r default

/-- Dereference a catalog-info object. -/
def PyHeap.getInfo (h : PyHeap) (r : Nat) : CatalogInfo :=
  h.infos.getD r default

/-- Allocate a structure object, returning the heap and the new reference. -/
def PyHeap.allocStruct (h : PyHeap) (o : PyCatalogStructure) : PyHeap × Nat :=
  ({ h with structs := h.structs ++ [o] }, h.structs.length)

/-- Allocate a catalog-info object, returning the heap and the new reference. -/
def PyHeap.allocInfo (h : PyHeap) (o : CatalogInfo) : PyHeap × Nat :=
  ({ h with infos := h.infos ++ [o] }, h.infos.length)

/-- Attribute assignment on a structure object: mutates only the object at
reference `r`. -/
def PyHeap.setStruct (h : PyHeap) (r : Nat) (f : PyCatalogStructure → PyCatalogStructure) :
    PyHeap :=
  { h with structs := h.structs.set r (f (h.getStruct r)) }

/-- Embedding of `create_modified_catalog_structure` with explicit Python
reference semantics, statement by statement: `copy.copy` allocates a shallow
copy (the `catalog_info` reference is shared with the original), the four
attribute assignments mutate only the copy, and `dataclasses.replace`
allocates a fresh info record which is then assigned to the copy's
`catalog_info` attribute. -/
def create_modified_catalog_structureHeap (h : PyHeap) (r : Nat)
    (catalog_base_dir catalog_name : String) (total_rows : Nat) : PyHeap × Nat :=
  let (h₁, nr) := h.allocStruct (h.getStruct r)
  let h₂ := h₁.setStruct nr (fun o => { o with catalog_name := catalog_name })
  let h₃ := h₂.setStruct nr (fun o => { o with catalog_path := catalog_base_dir })
  let h₄ := h₃.setStruct nr
    (fun o => { o with catalog_base_dir := get_file_pointer_from_path catalog_base_dir })
  let h₅ := h₄.setStruct nr (fun o => { o with on_disk := true })
  let old_info := h₅.getInfo ((h₅.getStruct nr).catalog_info)
  let (h₆, ir) := h₅.allocInfo
    { old_info with catalog_name := catalog_name, total_rows := total_rows }
  let h₇ := h₆.setStruct nr (fun o => { o with catalog_info := ir })
  (h₇, nr)

/-- A sample one-object heap, used to instantiate theorems: one catalog
structure whose `catalog_info` attribute points at `sampleInfo`. -/
def sampleHeap : PyHeap :=
  { structs := [{ catalog_name := "small_sky"
                  catalog_path := "/data/small_sky"
                  catalog_base_dir := ⟨"/data/small_sky"⟩
                  on_disk := false
                  catalog_info := 0 }]
    infos := [sampleInfo] }

/- ### Helper lemmas -/

theorem getD_set_of_ne {α : Type} (l : List α) (i j : Nat) (v d : α) (hij : i ≠ j) :
    (l.set i v).getD j d = l.getD j d := by
  simp [List.getD_eq_getElem?_getD, List.getElem?_set_ne hij]

theorem getD_append_left {α : Type} (l₁ l₂ : List α) (j : Nat) (d : α) (h : j < l₁.length) :
    (l₁ ++ l₂).getD j d = l₁.getD j d := by
  simp [List.getD_eq_getElem?_getD, List.getElem?_append_left h]

/-- On success, `writePartitionsGo` writes exactly one data file per entry of
the pixel map, in order, and returns the per-pixel row counts. -/
theorem writePartitionsGo_ok (env : Env) (parts : List DataFrame) (base : FilePointer)
    (l : List (HealpixPixel × Nat)) (tr : List IOEvent) (m : List (HealpixPixel × Nat))
    (h : writePartitionsGo env parts base l = (tr, .ok m)) :
    tr = l.map (fun pl => IOEvent.writeDataFile (parts.getD pl.snd [])
          (pixel_catalog_file base pl.fst.order pl.fst.pixel)) ∧
    m = l.map (fun pl => (pl.fst, (parts.getD pl.snd []).length)) := by
  induction l generalizing tr m with
  | nil =>
    simp only [writePartitionsGo, Prod.mk.injEq] at h
    obtain ⟨h₁, h₂⟩ := h
    simp_all
  | cons pl rest ih =>
    obtain ⟨pixel, partition_index⟩ := pl
    simp only [writePartitionsGo, write_dataframe_to_parquet] at h
    cases hw : env.writeFails (pixel_catalog_file base pixel.order pixel.pixel) with
    | some cause => rw [hw] at h; simp at h
    | none =>
      rw [hw] at h
      cases hrest : writePartitionsGo env parts base rest with
      | mk tr₂ res =>
        rw [hrest] at h
        cases res with
        | error e => simp [Except.map] at h
        | ok m₂ =>
          simp only [Except.map, List.nil_append, Prod.mk.injEq, Except.ok.injEq] at h
          obtain ⟨htr, hm⟩ := h
          obtain ⟨htr₂, hm₂⟩ := ih tr₂ m₂ hrest
          subst htr hm htr₂ hm₂
          simp

/-- If the pixel-map entries before `pl` all write successfully and `pl`'s
write fails, `writePartitionsGo` stops at `pl` with a `PartitionWriteError`
wrapping the cause, keeping the earlier write events. -/
theorem writePartitionsGo_fail (env : Env) (parts : List DataFrame) (base : FilePointer)
    (pre post : List (HealpixPixel × Nat)) (pl : HealpixPixel × Nat) (cause : IOFailure)
    (hpre : ∀ q ∈ pre, env.writeFails (pixel_catalog_file base q.fst.order q.fst.pixel) = none)
    (hfail : env.writeFails (pixel_catalog_file base pl.fst.order pl.fst.pixel) = some cause) :
    writePartitionsGo env parts base (pre ++ pl :: post) =
      (pre.map (fun q => IOEvent.writeDataFile (parts.getD q.snd [])
        (pixel_catalog_file base q.fst.order q.fst.pixel)),
       .error (.partitionWriteError cause)) := by
  induction pre with
  | nil =>
    obtain ⟨pixel, partition_index⟩ := pl
    simp only [List.nil_append, writePartitionsGo, write_dataframe_to_parquet]
    rw [hfail]
    simp
  | cons q pre ih =>
    obtain ⟨pixel, partition_index⟩ := q
    have hq := hpre ⟨pixel, partition_index⟩ (by simp)
    simp only [List.cons_append, writePartitionsGo, write_dataframe_to_parquet, List.append_eq]
    rw [hq, ih (fun x hx => hpre x (by simp [hx]))]
    simp [Except.map]

/-- `writtenCatalogInfo` skips over any prefix free of catalog-info writes. -/
theorem writtenCatalogInfo_append (tr rest : List IOEvent)
    (h : ∀ e ∈ tr, e.isWriteCatalogInfo = false) :
    writtenCatalogInfo (tr ++ rest) = writtenCatalogInfo rest := by
  induction tr with
  | nil => rfl
  | cons e tr ih =>
    have he := h e (by simp)
    have ih' := ih (fun x hx => h x (by simp [hx]))
    cases e <;> simp_all [writtenCatalogInfo, IOEvent.isWriteCatalogInfo]

/-- `writtenProvenance` skips over any prefix of data-file writes. -/
theorem writtenProvenance_append (tr rest : List IOEvent)
    (h : ∀ e ∈ tr, e.isWriteDataFile = true) :
    writtenProvenance (tr ++ rest) = writtenProvenance rest := by
  induction tr with
  | nil => rfl
  | cons e tr ih =>
    have he := h e (by simp)
    have ih' := ih (fun x hx => h x (by simp [hx]))
    cases e <;> simp_all [writtenProvenance, IOEvent.isWriteDataFile]

/- ### Claim theorems -/

/-- C3: for every row-count map, the partition-info entry built for a tile
key is the pair of that key's row count and the single-element destination
list holding the key's own pixel number; every key of the map yields exactly
such an entry, and every produced entry arises this way. -/
theorem get_partition_info_dict_entries (m : List (HealpixPixel × Nat)) :
    (∀ p n, (p, n) ∈ m → (p, (n, [p.pixel])) ∈ get_partition_info_dict m) ∧
    (∀ p e, (p, e) ∈ get_partition_info_dict m → e.snd = [p.pixel] ∧ (p, e.fst) ∈ m) := by
  constructor
  · intro p n hmem
    exact List.mem_map.mpr ⟨(p, n), hmem, rfl⟩
  · intro p e hmem
    rcases List.mem_map.mp hmem with ⟨⟨q, k⟩, hq, heq⟩
    simp only [Prod.mk.injEq] at heq
    obtain ⟨hq₁, hq₂⟩ := heq
    subst hq₁
    subst hq₂
    exact ⟨rfl, hq⟩

/-- Witness for C3 at tile key (order = 1, pixel = 3) with 5 rows: the entry
is (5, [3]). -/
theorem get_partition_info_dict_entries_witness :
    ((⟨1, 3⟩ : HealpixPixel), (5, [3])) ∈ get_partition_info_dict [(⟨1, 3⟩, 5)] :=
  (get_partition_info_dict_entries [(⟨1, 3⟩, 5)]).1 ⟨1, 3⟩ 5 (by simp)

/-- C4: `create_modified_catalog_structure` overwrites exactly the name, the
base path, the base-path pointer, the on-disk flag (to true) and the total
row count; the coordinate-column names, the catalog type and the epoch are
copied unchanged from the source descriptor, and two calls differing only in
the name produce descriptors differing only in the name fields. -/
theorem create_modified_catalog_structure_frame (cs : CatalogStructure)
    (dir name : String) (total : Nat) :
    (create_modified_catalog_structure cs dir name total).catalog_name = name ∧
    (create_modified_catalog_structure cs dir name total).catalog_path = dir ∧
    (create_modified_catalog_structure cs dir name total).catalog_base_dir =
      get_file_pointer_from_path dir ∧
    (create_modified_catalog_structure cs dir name total).on_disk = true ∧
    (create_modified_catalog_structure cs dir name total).catalog_info.catalog_name = name ∧
    (create_modified_catalog_structure cs dir name total).catalog_info.total_rows = total ∧
    (create_modified_catalog_structure cs dir name total).catalog_info.ra_column =
      cs.catalog_info.ra_column ∧
    (create_modified_catalog_structure cs dir name total).catalog_info.dec_column =
      cs.catalog_info.dec_column ∧
    (create_modified_catalog_structure cs dir name total).catalog_info.catalog_type =
      cs.catalog_info.catalog_type ∧
    (create_modified_catalog_structure cs dir name total).catalog_info.epoch =
      cs.catalog_info.epoch ∧
    ∀ name₂ : String,
      create_modified_catalog_structure cs dir name total =
        { create_modified_catalog_structure cs dir name₂ total with
            catalog_name := name
            catalog_info :=
              { (create_modified_catalog_structure cs dir name₂ total).catalog_info with
                  catalog_name := name } } :=
  ⟨rfl, rfl, rfl, rfl, rfl, rfl, rfl, rfl, rfl, rfl, fun _ => rfl⟩

/-- C10: passing the empty string as the catalog-name override behaves
exactly as passing no override (the argument is tested for Python
truthiness, and the empty string is falsy). -/
theorem to_hipscat_empty_string_override (env : Env) (catalog : Catalog)
    (base_catalog_path : String) :
    to_hipscat env catalog base_catalog_path (some "") =
      to_hipscat env catalog base_catalog_path none := by
  have hres : resolveCatalogName (some "") = resolveCatalogName none := by
    funext orig
    simp [resolveCatalogName]
  unfold to_hipscat
  rw [hres]

/-- C7: if creating the destination directory fails, the export fails
immediately with a `DirectoryCreationError`: the trace is empty, so in
particular no partition data file is written in that run. -/
theorem to_hipscat_mkdir_failure (env : Env) (catalog : Catalog)
    (base_catalog_path : String) (catalog_name : Option String) (cause : IOFailure)
    (hmk : env.mkdirFails base_catalog_path = some cause) :
    to_hipscat env catalog base_catalog_path catalog_name =
      ([], .error (.directoryCreationError cause)) ∧
    writtenDataFilePaths (to_hipscat env catalog base_catalog_path catalog_name).fst = [] := by
  have h : to_hipscat env catalog base_catalog_path catalog_name =
      ([], .error (.directoryCreationError cause)) := by
    unfold to_hipscat
    rw [hmk]
  exact ⟨h, by rw [h]; rfl⟩

/-- Witness for C7: with an environment whose directory creation fails, the
export of the sample catalog performs no write at all. -/
theorem to_hipscat_mkdir_failure_witness :
    to_hipscat mkdirFailEnv sampleCatalog "/out" none =
      ([], .error (.directoryCreationError "permission denied")) ∧
    writtenDataFilePaths (to_hipscat mkdirFailEnv sampleCatalog "/out" none).fst = [] :=
  to_hipscat_mkdir_failure mkdirFailEnv sampleCatalog "/out" none "permission denied" rfl

/-- Summing the row counts of the partition-info entries equals summing the
row-count map directly. -/
theorem partition_info_sum (m : List (HealpixPixel × Nat)) :
    ((get_partition_info_dict m).map (fun pi => pi.snd.fst)).sum = (m.map Prod.snd).sum := by
  simp only [get_partition_info_dict, List.map_map]
  rfl

theorem writtenCatalogInfo_cons_mkdir (fp : FilePointer) (tr : List IOEvent) :
    writtenCatalogInfo (IOEvent.makeDirectory fp :: tr) = writtenCatalogInfo tr := rfl

theorem writtenCatalogInfo_cons_meta (b : String) (tr : List IOEvent) :
    writtenCatalogInfo (IOEvent.writeParquetMetadata b :: tr) = writtenCatalogInfo tr := rfl

theorem writtenCatalogInfo_cons_pi (fp : FilePointer)
    (info : List (HealpixPixel × (Nat × List Nat))) (tr : List IOEvent) :
    writtenCatalogInfo (IOEvent.writePartitionInfo fp info :: tr) = writtenCatalogInfo tr := rfl

theorem writtenCatalogInfo_cons_ci (b : String) (info : CatalogInfo) (tr : List IOEvent) :
    writtenCatalogInfo (IOEvent.writeCatalogInfo b info :: tr) = some info := rfl

theorem writtenProvenance_cons_mkdir (fp : FilePointer) (tr : List IOEvent) :
    writtenProvenance (IOEvent.makeDirectory fp :: tr) = writtenProvenance tr := rfl

theorem writtenProvenance_cons_meta (b : String) (tr : List IOEvent) :
    writtenProvenance (IOEvent.writeParquetMetadata b :: tr) = writtenProvenance tr := rfl

theorem writtenProvenance_cons_pi (fp : FilePointer)
    (info : List (HealpixPixel × (Nat × List Nat))) (tr : List IOEvent) :
    writtenProvenance (IOEvent.writePartitionInfo fp info :: tr) = writtenProvenance tr := rfl

theorem writtenProvenance_cons_ci (b : String) (info : CatalogInfo) (tr : List IOEvent) :
    writtenProvenance (IOEvent.writeCatalogInfo b info :: tr) = writtenProvenance tr := rfl

theorem writtenProvenance_cons_prov (fp : FilePointer) (info : CatalogInfo)
    (prov : ProvenanceInfo) (tr : List IOEvent) :
    writtenProvenance (IOEvent.writeProvenance fp info prov :: tr) = some prov := rfl

/-- Under a successful directory creation and partition-writing step, the
export pipeline performs the whole trace and succeeds. -/
theorem to_hipscat_ok (env : Env) (catalog : Catalog) (base_catalog_path : String)
    (catalog_name : Option String) (tr : List IOEvent) (m : List (HealpixPixel × Nat))
    (hmk : env.mkdirFails base_catalog_path = none)
    (hwp : write_partitions env catalog (get_file_pointer_from_path base_catalog_path) =
      (tr, .ok m)) :
    to_hipscat env catalog base_catalog_path catalog_name =
      (IOEvent.makeDirectory (get_file_pointer_from_path base_catalog_path) :: tr ++
        [IOEvent.writeParquetMetadata base_catalog_path,
         IOEvent.writePartitionInfo (get_file_pointer_from_path base_catalog_path)
           (get_partition_info_dict m),
         IOEvent.writeCatalogInfo base_catalog_path
           (create_modified_catalog_structure catalog.hc_structure base_catalog_path
             (resolveCatalogName catalog_name catalog.hc_structure.catalog_name)
             (((get_partition_info_dict m).map (fun pi => pi.snd.fst)).sum)).catalog_info,
         IOEvent.writeProvenance (get_file_pointer_from_path base_catalog_path)
           (create_modified_catalog_structure catalog.hc_structure base_catalog_path
             (resolveCatalogName catalog_name catalog.hc_structure.catalog_name)
             (((get_partition_info_dict m).map (fun pi => pi.snd.fst)).sum)).catalog_info
           (get_provenance_info env
             (create_modified_catalog_structure catalog.hc_structure base_catalog_path
               (resolveCatalogName catalog_name catalog.hc_structure.catalog_name)
               (((get_partition_info_dict m).map (fun pi => pi.snd.fst)).sum)))],
       .ok ()) := by
  simp only [to_hipscat, hmk, hwp]

/-- The catalog-info record a successful export writes carries the resolved
catalog name. -/
theorem writtenName_eq_resolved (env : Env) (catalog : Catalog)
    (base_catalog_path : String) (catalog_name : Option String)
    (tr : List IOEvent) (m : List (HealpixPixel × Nat))
    (hmk : env.mkdirFails base_catalog_path = none)
    (hwp : write_partitions env catalog (get_file_pointer_from_path base_catalog_path) =
      (tr, .ok m)) :
    (writtenCatalogInfo (to_hipscat env catalog base_catalog_path catalog_name).fst).map
        CatalogInfo.catalog_name =
      some (resolveCatalogName catalog_name catalog.hc_structure.catalog_name) := by
  have htr := (writePartitionsGo_ok env catalog.ddf_partitions
    (get_file_pointer_from_path base_catalog_path) catalog.ddf_pixel_map tr m hwp).1
  have hall : ∀ e ∈ tr, e.isWriteCatalogInfo = false := by
    intro e he
    rw [htr] at he
    rcases List.mem_map.mp he with ⟨pl, _, rfl⟩
    rfl
  rw [to_hipscat_ok env catalog base_catalog_path catalog_name tr m hmk hwp]
  simp only [List.cons_append, writtenCatalogInfo_cons_mkdir]
  rw [writtenCatalogInfo_append tr _ hall]
  simp only [writtenCatalogInfo_cons_meta, writtenCatalogInfo_cons_pi,
    writtenCatalogInfo_cons_ci]
  rfl

/-- C1: the total row count written into the catalog info by the export
equals the sum, over every tile key of the row-count map produced by the
partition-writing step, of that key's row count. -/
theorem to_hipscat_total_rows (env : Env) (catalog : Catalog)
    (base_catalog_path : String) (catalog_name : Option String)
    (tr : List IOEvent) (m : List (HealpixPixel × Nat))
    (hmk : env.mkdirFails base_catalog_path = none)
    (hwp : write_partitions env catalog (get_file_pointer_from_path base_catalog_path) =
      (tr, .ok m)) :
    (writtenCatalogInfo (to_hipscat env catalog base_catalog_path catalog_name).fst).map
        CatalogInfo.total_rows = some ((m.map Prod.snd).sum) := by
  have htr := (writePartitionsGo_ok env catalog.ddf_partitions
    (get_file_pointer_from_path base_catalog_path) catalog.ddf_pixel_map tr m hwp).1
  have hall : ∀ e ∈ tr, e.isWriteCatalogInfo = false := by
    intro e he
    rw [htr] at he
    rcases List.mem_map.mp he with ⟨pl, _, rfl⟩
    rfl
  rw [to_hipscat_ok env catalog base_catalog_path catalog_name tr m hmk hwp]
  simp only [List.cons_append, writtenCatalogInfo_cons_mkdir]
  rw [writtenCatalogInfo_append tr _ hall]
  simp only [writtenCatalogInfo_cons_meta, writtenCatalogInfo_cons_pi,
    writtenCatalogInfo_cons_ci]
  simp [create_modified_catalog_structure, partition_info_sum]

/-- Witness for C1: the sample catalog has partitions with 5 and 7 rows and
the total written is 12. -/
theorem to_hipscat_total_rows_witness :
    (writtenCatalogInfo (to_hipscat okEnv sampleCatalog "/out" none).fst).map
        CatalogInfo.total_rows = some 12 :=
  to_hipscat_total_rows okEnv sampleCatalog "/out" none
    [IOEvent.writeDataFile [1, 2, 3, 4, 5] (pixel_catalog_file ⟨"/out"⟩ 0 11),
     IOEvent.writeDataFile [6, 7, 8, 9, 10, 11, 12] (pixel_catalog_file ⟨"/out"⟩ 1 3)]
    [(⟨0, 11⟩, 5), (⟨1, 3⟩, 7)] rfl rfl

/-- C8: the provenance record written by a successful export has the fixed
tool name, the release version obtained from the version lookup, and runtime
arguments built from the resolved catalog name, the output path, the source
catalog's coordinate-column names, catalog type and epoch. -/
theorem to_hipscat_provenance_record (env : Env) (catalog : Catalog)
    (base_catalog_path : String) (catalog_name : Option String)
    (tr : List IOEvent) (m : List (HealpixPixel × Nat))
    (hmk : env.mkdirFails base_catalog_path = none)
    (hwp : write_partitions env catalog (get_file_pointer_from_path base_catalog_path) =
      (tr, .ok m)) :
    writtenProvenance (to_hipscat env catalog base_catalog_path catalog_name).fst =
      some
        { tool_name := "lsdb"
          version := env.versionLookup "lsdb"
          runtime_args :=
            { catalog_name := resolveCatalogName catalog_name catalog.hc_structure.catalog_name
              output_path := base_catalog_path
              output_catalog_name :=
                resolveCatalogName catalog_name catalog.hc_structure.catalog_name
              catalog_path := base_catalog_path
              epoch := catalog.hc_structure.catalog_info.epoch
              catalog_type := catalog.hc_structure.catalog_info.catalog_type
              ra_column := catalog.hc_structure.catalog_info.ra_column
              dec_column := catalog.hc_structure.catalog_info.dec_column } } := by
  have htr := (writePartitionsGo_ok env catalog.ddf_partitions
    (get_file_pointer_from_path base_catalog_path) catalog.ddf_pixel_map tr m hwp).1
  have hall : ∀ e ∈ tr, e.isWriteDataFile = true := by
    intro e he
    rw [htr] at he
    rcases List.mem_map.mp he with ⟨pl, _, rfl⟩
    rfl
  rw [to_hipscat_ok env catalog base_catalog_path catalog_name tr m hmk hwp]
  simp only [List.cons_append, writtenProvenance_cons_mkdir]
  rw [writtenProvenance_append tr _ hall]
  simp only [writtenProvenance_cons_meta, writtenProvenance_cons_pi,
    writtenProvenance_cons_ci, writtenProvenance_cons_prov]
  rfl

/-- Witness for C8: the provenance record of a successful sample export. -/
theorem to_hipscat_provenance_record_witness :
    writtenProvenance (to_hipscat okEnv sampleCatalog "/out" none).fst =
      some
        { tool_name := "lsdb"
          version := "0.0.1"
          runtime_args :=
            { catalog_name := "small_sky"
              output_path := "/out"
              output_catalog_name := "small_sky"
              catalog_path := "/out"
              epoch := "J2000"
              catalog_type := "object"
              ra_column := "ra"
              dec_column := "dec" } } :=
  to_hipscat_provenance_record okEnv sampleCatalog "/out" none
    [IOEvent.writeDataFile [1, 2, 3, 4, 5] (pixel_catalog_file ⟨"/out"⟩ 0 11),
     IOEvent.writeDataFile [6, 7, 8, 9, 10, 11, 12] (pixel_catalog_file ⟨"/out"⟩ 1 3)]
    [(⟨0, 11⟩, 5), (⟨1, 3⟩, 7)] rfl rfl

/-- C9 fails as stated: providing the empty string as the name override
writes the source catalog's name "small_sky" into the catalog info, not the
provided override "". -/
theorem to_hipscat_override_counterexample :
    (writtenCatalogInfo (to_hipscat okEnv sampleCatalog "/out" (some "")).fst).map
        CatalogInfo.catalog_name = some "small_sky" ∧ ("small_sky" : String) ≠ "" :=
  ⟨rfl, by decide⟩

/-- C9 (amended): when no override is provided the name written into the
catalog info is the source catalog's name; when a non-empty override is
provided, the name written is that override. -/
theorem to_hipscat_written_name (env : Env) (catalog : Catalog)
    (base_catalog_path : String) (s : String)
    (tr : List IOEvent) (m : List (HealpixPixel × Nat))
    (hmk : env.mkdirFails base_catalog_path = none)
    (hwp : write_partitions env catalog (get_file_pointer_from_path base_catalog_path) =
      (tr, .ok m)) :
    (writtenCatalogInfo (to_hipscat env catalog base_catalog_path none).fst).map
        CatalogInfo.catalog_name = some catalog.hc_structure.catalog_name ∧
    (s ≠ "" →
      (writtenCatalogInfo (to_hipscat env catalog base_catalog_path (some s)).fst).map
          CatalogInfo.catalog_name = some s) := by
  constructor
  · exact writtenName_eq_resolved env catalog base_catalog_path none tr m hmk hwp
  · intro hs
    rw [writtenName_eq_resolved env catalog base_catalog_path (some s) tr m hmk hwp]
    simp [resolveCatalogName, hs]

/-- Witness for C9 (amended): the sample export writes the source name
"small_sky" without an override and the override "renamed" with one. -/
theorem to_hipscat_written_name_witness :
    ((writtenCatalogInfo (to_hipscat okEnv sampleCatalog "/out" none).fst).map
        CatalogInfo.catalog_name = some "small_sky" ∧
      ("renamed" ≠ "" →
        (writtenCatalogInfo (to_hipscat okEnv sampleCatalog "/out" (some "renamed")).fst).map
            CatalogInfo.catalog_name = some "renamed")) ∧
    ("renamed" : String) ≠ "" :=
  ⟨to_hipscat_written_name okEnv sampleCatalog "/out" "renamed"
    [IOEvent.writeDataFile [1, 2, 3, 4, 5] (pixel_catalog_file ⟨"/out"⟩ 0 11),
     IOEvent.writeDataFile [6, 7, 8, 9, 10, 11, 12] (pixel_catalog_file ⟨"/out"⟩ 1 3)]
    [(⟨0, 11⟩, 5), (⟨1, 3⟩, 7)] rfl rfl, by decide⟩

/-- The data-file paths of the write events produced for a pixel map are the
per-key deterministic paths, in order. -/
theorem writtenDataFilePaths_writes (parts : List DataFrame) (base : FilePointer)
    (l : List (HealpixPixel × Nat)) :
    writtenDataFilePaths (l.map (fun pl => IOEvent.writeDataFile (parts.getD pl.snd [])
        (pixel_catalog_file base pl.fst.order pl.fst.pixel))) =
      l.map (fun pl => pixel_catalog_file base pl.fst.order pl.fst.pixel) := by
  induction l with
  | nil => rfl
  | cons pl l ih =>
    simpa [writtenDataFilePaths, List.filterMap_cons] using ih

/-- C2: a successful partition-writing step visits every tile key of the
source pixel map exactly once, writes exactly one data file per tile key
(not skipping empty partitions), and the row-count map it returns has
exactly the source catalog's tile keys as its domain. -/
theorem write_partitions_one_file_per_key (env : Env) (catalog : Catalog)
    (base : FilePointer) (tr : List IOEvent) (m : List (HealpixPixel × Nat))
    (hok : write_partitions env catalog base = (tr, .ok m))
    (hnodup : (catalog.ddf_pixel_map.map Prod.fst).Nodup) :
    m.map Prod.fst = catalog.ddf_pixel_map.map Prod.fst ∧
    writtenDataFilePaths tr =
      (catalog.ddf_pixel_map.map Prod.fst).map
        (fun p => pixel_catalog_file base p.order p.pixel) ∧
    (writtenDataFilePaths tr).Nodup := by
  obtain ⟨htr, hm⟩ := writePartitionsGo_ok env catalog.ddf_partitions base
    catalog.ddf_pixel_map tr m hok
  have hpaths : writtenDataFilePaths tr =
      (catalog.ddf_pixel_map.map Prod.fst).map
        (fun p => pixel_catalog_file base p.order p.pixel) := by
    rw [htr, writtenDataFilePaths_writes, List.map_map]
    rfl
  refine ⟨?_, hpaths, ?_⟩
  · rw [hm, List.map_map]
    rfl
  · rw [hpaths]
    have hinj : Function.Injective
        (fun p : HealpixPixel => pixel_catalog_file base p.order p.pixel) := by
      intro a b hab
      cases a
      cases b
      simpa [pixel_catalog_file, PixelPath.mk.injEq, HealpixPixel.mk.injEq] using hab
    exact List.Nodup.map hinj hnodup

/-- Witness for C2: the sample catalog with an empty partition gets a data
file written for its empty pixel too, with distinct paths and the original
domain. -/
theorem write_partitions_one_file_per_key_witness :
    [((⟨0, 11⟩ : HealpixPixel), 0), (⟨1, 3⟩, 2)].map Prod.fst =
        sampleCatalogWithEmpty.ddf_pixel_map.map Prod.fst ∧
    writtenDataFilePaths [IOEvent.writeDataFile [] (pixel_catalog_file ⟨"/out"⟩ 0 11),
        IOEvent.writeDataFile [6, 7] (pixel_catalog_file ⟨"/out"⟩ 1 3)] =
      (sampleCatalogWithEmpty.ddf_pixel_map.map Prod.fst).map
        (fun p => pixel_catalog_file ⟨"/out"⟩ p.order p.pixel) ∧
    (writtenDataFilePaths [IOEvent.writeDataFile [] (pixel_catalog_file ⟨"/out"⟩ 0 11),
        IOEvent.writeDataFile [6, 7] (pixel_catalog_file ⟨"/out"⟩ 1 3)]).Nodup :=
  write_partitions_one_file_per_key okEnv sampleCatalogWithEmpty ⟨"/out"⟩
    [IOEvent.writeDataFile [] (pixel_catalog_file ⟨"/out"⟩ 0 11),
     IOEvent.writeDataFile [6, 7] (pixel_catalog_file ⟨"/out"⟩ 1 3)]
    [(⟨0, 11⟩, 0), (⟨1, 3⟩, 2)] rfl (by decide)

/-- C6: if a partition write fails, the export fails with a
`PartitionWriteError` wrapping the underlying cause; the error is not caught
internally and propagates as the export's result, and the partitions written
before the failure remain in the trace, with no rollback. -/
theorem to_hipscat_partition_write_failure (env : Env) (catalog : Catalog)
    (base_catalog_path : String) (catalog_name : Option String)
    (pre post : List (HealpixPixel × Nat)) (pl : HealpixPixel × Nat) (cause : IOFailure)
    (hmk : env.mkdirFails base_catalog_path = none)
    (hsplit : catalog.ddf_pixel_map = pre ++ pl :: post)
    (hpre : ∀ q ∈ pre, env.writeFails (pixel_catalog_file
      (get_file_pointer_from_path base_catalog_path) q.fst.order q.fst.pixel) = none)
    (hfail : env.writeFails (pixel_catalog_file
      (get_file_pointer_from_path base_catalog_path) pl.fst.order pl.fst.pixel) = some cause) :
    to_hipscat env catalog base_catalog_path catalog_name =
      (IOEvent.makeDirectory (get_file_pointer_from_path base_catalog_path) ::
        pre.map (fun q => IOEvent.writeDataFile (catalog.ddf_partitions.getD q.snd [])
          (pixel_catalog_file (get_file_pointer_from_path base_catalog_path)
            q.fst.order q.fst.pixel)),
       .error (.partitionWriteError cause)) := by
  have hwp : write_partitions env catalog (get_file_pointer_from_path base_catalog_path) =
      (pre.map (fun q => IOEvent.writeDataFile (catalog.ddf_partitions.getD q.snd [])
        (pixel_catalog_file (get_file_pointer_from_path base_catalog_path)
          q.fst.order q.fst.pixel)),
       .error (.partitionWriteError cause)) := by
    unfold write_partitions
    rw [hsplit]
    exact writePartitionsGo_fail env catalog.ddf_partitions _ pre post pl cause hpre hfail
  simp only [to_hipscat, hmk, hwp]

/-- Witness for C6: the sample export under an environment that fails the
write of pixel (1, 3) returns a `PartitionWriteError` wrapping "disk full"
and keeps the data file already written for pixel (0, 11). -/
theorem to_hipscat_partition_write_failure_witness :
    to_hipscat writeFailEnv sampleCatalog "/out" none =
      (IOEvent.makeDirectory (get_file_pointer_from_path "/out") ::
        [((⟨0, 11⟩ : HealpixPixel), 0)].map
          (fun q => IOEvent.writeDataFile (sampleCatalog.ddf_partitions.getD q.snd [])
            (pixel_catalog_file (get_file_pointer_from_path "/out")
              q.fst.order q.fst.pixel)),
       .error (.partitionWriteError "disk full")) :=
  to_hipscat_partition_write_failure writeFailEnv sampleCatalog "/out" none
    [(⟨0, 11⟩, 0)] [] (⟨1, 3⟩, 1) "disk full" rfl rfl (by decide) rfl

/-- C5: constructing the updated catalog structure does not mutate the
source object in place: in the Python heap model, the catalog-structure
object at the source reference and every pre-existing catalog-info object
(in particular the source's own) are unchanged after the call. -/
theorem create_modified_catalog_structure_no_mutation (h : PyHeap) (r : Nat)
    (dir name : String) (total : Nat) (hr : r < h.structs.length) :
    (create_modified_catalog_structureHeap h r dir name total).fst.getStruct r =
      h.getStruct r ∧
    ∀ i < h.infos.length,
      (create_modified_catalog_structureHeap h r dir name total).fst.getInfo i =
        h.getInfo i := by
  have hne : h.structs.length ≠ r := Nat.ne_of_gt hr
  constructor
  · simp only [create_modified_catalog_structureHeap, PyHeap.allocStruct, PyHeap.allocInfo,
      PyHeap.setStruct, PyHeap.getStruct, PyHeap.getInfo]
    rw [getD_set_of_ne _ _ _ _ _ hne, getD_set_of_ne _ _ _ _ _ hne,
      getD_set_of_ne _ _ _ _ _ hne, getD_set_of_ne _ _ _ _ _ hne,
      getD_set_of_ne _ _ _ _ _ hne, getD_append_left _ _ _ _ hr]
  · intro i hi
    simp only [create_modified_catalog_structureHeap, PyHeap.allocStruct, PyHeap.allocInfo,
      PyHeap.setStruct, PyHeap.getInfo]
    rw [getD_append_left _ _ _ _ hi]

/-- Witness for C5: on the sample heap, building the modified structure at
the only reference leaves the original object and info record unchanged. -/
theorem create_modified_catalog_structure_no_mutation_witness :
    (create_modified_catalog_structureHeap sampleHeap 0 "/out" "renamed" 12).fst.getStruct 0 =
      sampleHeap.getStruct 0 ∧
    ∀ i < sampleHeap.infos.length,
      (create_modified_catalog_structureHeap sampleHeap 0 "/out" "renamed" 12).fst.getInfo i =
        sampleHeap.getInfo i :=
  create_modified_catalog_structure_no_mutation sampleHeap 0 "/out" "renamed" 12 (by decide)
